import Mathlib

/-!
EmuController: queue entry points and the device-control dispatcher.

A shallow embedding of `src/EmuController/Queue.c`:

* `EmuControllerQueueInitialize` and `EmuControllerManualQueueInitialize`
  (queue creation and queue-context set-up), and
* `EmuControllerEvtIoDeviceControl` (readiness gate, opcode switch, final
  completion check).

Framework objects are handles (natural numbers); the context areas attached to
them live in a `World` record that every operation threads through.  A pointer
to a context area is represented by the handle of the object owning that area.
Calls that leave `Queue.c` (the helper routines of the driver and
`WdfRequestComplete`) are recorded, in program order, in a list of `Call`s.
-/

set_option linter.unusedVariables false

namespace EmuController

/-! ## Framework handles, status codes -/

/-- A signed 32-bit status value (`LONG`). -/
abbrev NTSTATUS := Int
/-- Handle of a framework device object. -/
abbrev WDFDEVICE := Nat
/-- Handle of a framework queue object. -/
abbrev WDFQUEUE := Nat
/-- Handle of a framework request object. -/
abbrev WDFREQUEST := Nat
/-- One byte. -/
abbrev UCHAR := Nat
/-- Pointer to the `DEVICE_CONTEXT` area of a device: the handle of that device. -/
abbrev PDEVICE_CONTEXT := WDFDEVICE
/-- Pointer to the `QUEUE_CONTEXT` area of a queue: the handle of that queue. -/
abbrev PQUEUE_CONTEXT := WDFQUEUE

/-- The signed reading of a 32-bit pattern, as in `((NTSTATUS)0xC0000002L)`. -/
def toNTSTATUS (bits : Nat) : NTSTATUS :=
  if bits % 2 ^ 32 < 2 ^ 31 then ((bits % 2 ^ 32 : Nat) : Int)
  else ((bits % 2 ^ 32 : Nat) : Int) - 2 ^ 32

/-- The macro `NT_SUCCESS(Status)`, that is `((NTSTATUS)(Status)) >= 0`. -/
def NT_SUCCESS (Status : NTSTATUS) : Bool := decide (0 ≤ Status)

def STATUS_SUCCESS : NTSTATUS := toNTSTATUS 0x00000000
def STATUS_NOT_IMPLEMENTED : NTSTATUS := toNTSTATUS 0xC0000002
def STATUS_INVALID_PARAMETER : NTSTATUS := toNTSTATUS 0xC000000D
def STATUS_BUFFER_TOO_SMALL : NTSTATUS := toNTSTATUS 0xC0000023

/-- Modelled from the spec: the `Not-Ready` error kind of spec §7 ("device
metadata uninitialized"), which §7 lists apart from `Not-Implemented`.
`Queue.c` never names such a status; it is taken to be the NT status
`STATUS_DEVICE_NOT_READY`. -/
def STATUS_DEVICE_NOT_READY : NTSTATUS := toNTSTATUS 0xC00000A3

/-! ## I/O control codes

`Queue.c` names its codes through the platform headers; the values below follow
the `CTL_CODE` scheme of those headers.  The results only use that the codes
with a `case` of their own are pairwise different, as C requires of the labels
of one `switch` (`routedCodes_nodup`). -/

def FILE_DEVICE_KEYBOARD : Nat := 0x0000000b
def METHOD_OUT_DIRECT : Nat := 2
def METHOD_NEITHER : Nat := 3
def FILE_ANY_ACCESS : Nat := 0

def CTL_CODE (DeviceType Function Method Access : Nat) : Nat :=
  (DeviceType <<< 16) ||| (Access <<< 14) ||| (Function <<< 2) ||| Method

def HID_CTL_CODE (id : Nat) : Nat :=
  CTL_CODE FILE_DEVICE_KEYBOARD id METHOD_NEITHER FILE_ANY_ACCESS

def HID_OUT_CTL_CODE (id : Nat) : Nat :=
  CTL_CODE FILE_DEVICE_KEYBOARD id METHOD_OUT_DIRECT FILE_ANY_ACCESS

def IOCTL_HID_GET_DEVICE_DESCRIPTOR : Nat := HID_CTL_CODE 0
def IOCTL_HID_GET_REPORT_DESCRIPTOR : Nat := HID_CTL_CODE 1
def IOCTL_HID_READ_REPORT : Nat := HID_CTL_CODE 2
def IOCTL_HID_WRITE_REPORT : Nat := HID_CTL_CODE 3
def IOCTL_HID_GET_STRING : Nat := HID_CTL_CODE 4
def IOCTL_HID_ACTIVATE_DEVICE : Nat := HID_CTL_CODE 7
def IOCTL_HID_DEACTIVATE_DEVICE : Nat := HID_CTL_CODE 8
def IOCTL_HID_GET_DEVICE_ATTRIBUTES : Nat := HID_CTL_CODE 9
def IOCTL_HID_SEND_IDLE_NOTIFICATION_REQUEST : Nat := HID_CTL_CODE 10
def IOCTL_UMDF_HID_SET_FEATURE : Nat := HID_CTL_CODE 20
def IOCTL_UMDF_HID_GET_FEATURE : Nat := HID_CTL_CODE 21
def IOCTL_UMDF_HID_SET_OUTPUT_REPORT : Nat := HID_CTL_CODE 22
def IOCTL_UMDF_HID_GET_INPUT_REPORT : Nat := HID_CTL_CODE 23
def IOCTL_GET_PHYSICAL_DESCRIPTOR : Nat := HID_OUT_CTL_CODE 102
def IOCTL_HID_GET_INDEXED_STRING : Nat := HID_OUT_CTL_CODE 120

/-! ## Device and queue contexts -/

/-- One entry of `HID_DESCRIPTOR.DescriptorList`. -/
structure HID_DESCRIPTOR_DESC_LIST where
  bReportType : Nat
  wReportLength : Nat
  deriving DecidableEq, Repr

/-- The HID descriptor.  `DescriptorList` is declared as a one-element array;
the field `DescriptorList0` is its entry `DescriptorList[0]`, the only one the
file reads. -/
structure HID_DESCRIPTOR where
  bLength : Nat
  bDescriptorType : Nat
  bcdHID : Nat
  bCountry : Nat
  bNumDescriptors : Nat
  DescriptorList0 : HID_DESCRIPTOR_DESC_LIST
  deriving DecidableEq, Repr

/-- The value of `sizeof(HID_DEVICE_ATTRIBUTES)`: a `ULONG`, three `USHORT`s
and eleven reserved `USHORT`s. -/
def sizeof_HID_DEVICE_ATTRIBUTES : Nat := 4 + 3 * 2 + 11 * 2

/-- The part of `DEVICE_CONTEXT` whose fields `Queue.c` reads by value.  The
members `HidDeviceAttributes` and `ReportDescriptor` are only passed on by
address, see `PVOID`. -/
structure DEVICE_CONTEXT where
  HidDescriptor : HID_DESCRIPTOR
  deriving DecidableEq, Repr

/-- Contents of a queue context area. -/
structure QUEUE_CONTEXT where
  Queue : WDFQUEUE
  DeviceContext : PDEVICE_CONTEXT
  deriving DecidableEq, Repr

/-- The source addresses `Queue.c` hands to `RequestCopyFromBuffer`. -/
inductive PVOID where
  /-- The address `&ctx->HidDescriptor`. -/
  | HidDescriptor (ctx : PDEVICE_CONTEXT)
  /-- The address `&ctx->HidDeviceAttributes`. -/
  | HidDeviceAttributes (ctx : PDEVICE_CONTEXT)
  /-- The value of `ctx->ReportDescriptor`. -/
  | ReportDescriptor (ctx : PDEVICE_CONTEXT)
  deriving DecidableEq, Repr

/-- Everything the operations can observe or change. -/
structure World where
  /-- Result of `WdfIoQueueGetDevice` for each queue. -/
  WdfIoQueueGetDevice : WDFQUEUE → WDFDEVICE
  /-- Contents of the context area `QueueGetContext` returns for each queue. -/
  QueueContext : WDFQUEUE → QUEUE_CONTEXT
  /-- Contents of the context area `DeviceGetContext` returns for each device. -/
  DeviceContext : WDFDEVICE → DEVICE_CONTEXT
  /-- The byte stored at each offset from a source address. -/
  Memory : PVOID → Nat → UCHAR
  /-- The output buffer of each request; its length is the caller's capacity. -/
  OutputBuffer : WDFREQUEST → List UCHAR
  /-- The output length recorded for each request. -/
  Information : WDFREQUEST → Nat
  /-- The pending read requests, oldest first (spec §3, Deferred Read Queue). -/
  DeferredReadQueue : List WDFREQUEST
  /-- The current report payload of the device (spec §3). -/
  CurrentReport : List UCHAR

/-- A call that leaves `Queue.c`, with its arguments. -/
inductive Call where
  | RequestCopyFromBuffer (Request : WDFREQUEST) (SourceBuffer : PVOID) (NumBytesToCopyFrom : Nat)
  | ReadReport (QueueContext : PQUEUE_CONTEXT) (Request : WDFREQUEST)
  | WriteReport (QueueContext : PQUEUE_CONTEXT) (Request : WDFREQUEST)
  | GetFeature (QueueContext : PQUEUE_CONTEXT) (Request : WDFREQUEST)
  | SetFeature (QueueContext : PQUEUE_CONTEXT) (Request : WDFREQUEST)
  | GetInputReport (QueueContext : PQUEUE_CONTEXT) (Request : WDFREQUEST)
  | SetOutputReport (QueueContext : PQUEUE_CONTEXT) (Request : WDFREQUEST)
  | GetString (Request : WDFREQUEST)
  | GetIndexedString (Request : WDFREQUEST)
  | WdfRequestComplete (Request : WDFREQUEST) (Status : NTSTATUS)
  deriving DecidableEq, Repr

/-- The helper routines `Queue.c` calls and does not define.  Each one takes
its C arguments and the world, and returns its status and the world it leaves.
`ReadReport` receives the current value of `completeRequest` (it is passed by
address) and also returns the value it leaves there. -/
structure Handlers where
  RequestCopyFromBuffer : WDFREQUEST → PVOID → Nat → World → NTSTATUS × World
  ReadReport : PQUEUE_CONTEXT → WDFREQUEST → Bool → World → NTSTATUS × Bool × World
  WriteReport : PQUEUE_CONTEXT → WDFREQUEST → World → NTSTATUS × World
  GetFeature : PQUEUE_CONTEXT → WDFREQUEST → World → NTSTATUS × World
  SetFeature : PQUEUE_CONTEXT → WDFREQUEST → World → NTSTATUS × World
  GetInputReport : PQUEUE_CONTEXT → WDFREQUEST → World → NTSTATUS × World
  SetOutputReport : PQUEUE_CONTEXT → WDFREQUEST → World → NTSTATUS × World
  GetString : WDFREQUEST → World → NTSTATUS × World
  GetIndexedString : WDFREQUEST → World → NTSTATUS × World

/-! ## `EmuControllerEvtIoDeviceControl` -/

/-- The locals of `EmuControllerEvtIoDeviceControl` after the `switch`,
together with the world and the calls made so far. -/
structure Locals where
  status : NTSTATUS
  completeRequest : Bool
  world : World
  calls : List Call

/-- The `switch (IoControlCode)` of lines 233-335, entered with the locals
`status` and `completeRequest` as they stand. -/
def ioctlSwitch (h : Handlers) (queueContext : PQUEUE_CONTEXT)
    (deviceContext : PDEVICE_CONTEXT) (Request : WDFREQUEST) (IoControlCode : Nat)
    (status : NTSTATUS) (completeRequest : Bool) (w : World) : Locals :=
  if IoControlCode = IOCTL_HID_GET_DEVICE_DESCRIPTOR then
    let n := (w.DeviceContext deviceContext).HidDescriptor.bLength
    let r := h.RequestCopyFromBuffer Request (PVOID.HidDescriptor deviceContext) n w
    ⟨r.1, completeRequest, r.2,
      [Call.RequestCopyFromBuffer Request (PVOID.HidDescriptor deviceContext) n]⟩
  else if IoControlCode = IOCTL_HID_GET_DEVICE_ATTRIBUTES then
    let src := PVOID.HidDeviceAttributes (w.QueueContext queueContext).DeviceContext
    let r := h.RequestCopyFromBuffer Request src sizeof_HID_DEVICE_ATTRIBUTES w
    ⟨r.1, completeRequest, r.2,
      [Call.RequestCopyFromBuffer Request src sizeof_HID_DEVICE_ATTRIBUTES]⟩
  else if IoControlCode = IOCTL_HID_GET_REPORT_DESCRIPTOR then
    let n := (w.DeviceContext deviceContext).HidDescriptor.DescriptorList0.wReportLength
    let r := h.RequestCopyFromBuffer Request (PVOID.ReportDescriptor deviceContext) n w
    ⟨r.1, completeRequest, r.2,
      [Call.RequestCopyFromBuffer Request (PVOID.ReportDescriptor deviceContext) n]⟩
  else if IoControlCode = IOCTL_HID_READ_REPORT then
    let r := h.ReadReport queueContext Request completeRequest w
    ⟨r.1, r.2.1, r.2.2, [Call.ReadReport queueContext Request]⟩
  else if IoControlCode = IOCTL_HID_WRITE_REPORT then
    let r := h.WriteReport queueContext Request w
    ⟨r.1, completeRequest, r.2, [Call.WriteReport queueContext Request]⟩
  else if IoControlCode = IOCTL_UMDF_HID_GET_FEATURE then
    let r := h.GetFeature queueContext Request w
    ⟨r.1, completeRequest, r.2, [Call.GetFeature queueContext Request]⟩
  else if IoControlCode = IOCTL_UMDF_HID_SET_FEATURE then
    let r := h.SetFeature queueContext Request w
    ⟨r.1, completeRequest, r.2, [Call.SetFeature queueContext Request]⟩
  else if IoControlCode = IOCTL_UMDF_HID_GET_INPUT_REPORT then
    let r := h.GetInputReport queueContext Request w
    ⟨r.1, completeRequest, r.2, [Call.GetInputReport queueContext Request]⟩
  else if IoControlCode = IOCTL_UMDF_HID_SET_OUTPUT_REPORT then
    let r := h.SetOutputReport queueContext Request w
    ⟨r.1, completeRequest, r.2, [Call.SetOutputReport queueContext Request]⟩
  else if IoControlCode = IOCTL_HID_GET_STRING then
    let r := h.GetString Request w
    ⟨r.1, completeRequest, r.2, [Call.GetString Request]⟩
  else if IoControlCode = IOCTL_HID_GET_INDEXED_STRING then
    let r := h.GetIndexedString Request w
    ⟨r.1, completeRequest, r.2, [Call.GetIndexedString Request]⟩
  else
    -- IOCTL_HID_SEND_IDLE_NOTIFICATION_REQUEST, IOCTL_HID_ACTIVATE_DEVICE,
    -- IOCTL_HID_DEACTIVATE_DEVICE, IOCTL_GET_PHYSICAL_DESCRIPTOR, default
    ⟨STATUS_NOT_IMPLEMENTED, completeRequest, w, []⟩

/-- The routine `EmuControllerEvtIoDeviceControl` of lines 179-343.  It
returns the world it leaves and the calls it made, in order. -/
def EmuControllerEvtIoDeviceControl (h : Handlers) (Queue : WDFQUEUE)
    (Request : WDFREQUEST) (OutputBufferLength InputBufferLength : Nat)
    (IoControlCode : Nat) (w : World) : World × List Call :=
  let status : NTSTATUS := STATUS_NOT_IMPLEMENTED
  let completeRequest : Bool := true
  let device : WDFDEVICE := w.WdfIoQueueGetDevice Queue
  let queueContext : PQUEUE_CONTEXT := Queue
  let deviceContext : PDEVICE_CONTEXT := device
  if (w.DeviceContext deviceContext).HidDescriptor.bLength == 0 ||
      (w.DeviceContext deviceContext).HidDescriptor.DescriptorList0.wReportLength == 0 then
    -- lines 228-229: complete with the initial status and return
    (w, [Call.WdfRequestComplete Request status])
  else
    let l := ioctlSwitch h queueContext deviceContext Request IoControlCode
      status completeRequest w
    if l.completeRequest then
      (l.world, l.calls ++ [Call.WdfRequestComplete Request l.status])
    else
      (l.world, l.calls)

/-! ## Queue creation -/

inductive WDF_IO_QUEUE_DISPATCH_TYPE where
  | WdfIoQueueDispatchSequential
  | WdfIoQueueDispatchParallel
  | WdfIoQueueDispatchManual
  deriving DecidableEq, Repr

/-- The callbacks a queue configuration can point to. -/
inductive EVT_WDF_IO_QUEUE_IO_DEVICE_CONTROL where
  | EmuControllerEvtIoDeviceControl
  deriving DecidableEq, Repr

/-- The fields of `WDF_IO_QUEUE_CONFIG` that `Queue.c` determines. -/
structure WDF_IO_QUEUE_CONFIG where
  DispatchType : WDF_IO_QUEUE_DISPATCH_TYPE
  DefaultQueue : Bool
  EvtIoDeviceControl : Option EVT_WDF_IO_QUEUE_IO_DEVICE_CONTROL
  deriving DecidableEq, Repr

/-- The context types an object can be created with. -/
inductive WDF_OBJECT_CONTEXT_TYPE where
  | QUEUE_CONTEXT
  | DEVICE_CONTEXT
  deriving DecidableEq, Repr

structure WDF_OBJECT_ATTRIBUTES where
  ContextTypeInfo : Option WDF_OBJECT_CONTEXT_TYPE
  deriving DecidableEq, Repr

/-- The framework macro: a default queue of the given dispatch type, no
callbacks set. -/
def WDF_IO_QUEUE_CONFIG_INIT_DEFAULT_QUEUE
    (DispatchType : WDF_IO_QUEUE_DISPATCH_TYPE) : WDF_IO_QUEUE_CONFIG :=
  ⟨DispatchType, true, none⟩

/-- The framework macro: a non-default queue of the given dispatch type, no
callbacks set. -/
def WDF_IO_QUEUE_CONFIG_INIT
    (DispatchType : WDF_IO_QUEUE_DISPATCH_TYPE) : WDF_IO_QUEUE_CONFIG :=
  ⟨DispatchType, false, none⟩

def WDF_OBJECT_ATTRIBUTES_INIT_CONTEXT_TYPE
    (t : WDF_OBJECT_CONTEXT_TYPE) : WDF_OBJECT_ATTRIBUTES :=
  ⟨some t⟩

/-- The framework routine `WdfIoQueueCreate`, which `Queue.c` calls and does
not define: from the device, the configuration, the attributes and the world it
yields its status, the handle it stores through its last argument, and the
world it leaves. -/
abbrev WdfIoQueueCreateFn :=
  WDFDEVICE → WDF_IO_QUEUE_CONFIG → WDF_OBJECT_ATTRIBUTES → World → NTSTATUS × WDFQUEUE × World

/-- The two stores `queueContext->Queue = queue` and
`queueContext->DeviceContext = DeviceGetContext(Device)` into the context area
of `queue`. -/
def storeQueueContext (w : World) (queue : WDFQUEUE) (Device : WDFDEVICE) : World :=
  { w with QueueContext := fun q =>
      if q = queue then ⟨queue, Device⟩ else w.QueueContext q }

/-- The routine `EmuControllerQueueInitialize` of lines 34-107.  The argument
`Queue` is what the caller's `*Queue` holds on entry; the result is the
returned status, what `*Queue` holds on return, and the world. -/
def EmuControllerQueueInitialize (WdfIoQueueCreate : WdfIoQueueCreateFn)
    (Device : WDFDEVICE) (Queue : WDFQUEUE) (w : World) : NTSTATUS × WDFQUEUE × World :=
  let queueConfig :=
    WDF_IO_QUEUE_CONFIG_INIT_DEFAULT_QUEUE WDF_IO_QUEUE_DISPATCH_TYPE.WdfIoQueueDispatchParallel
  let queueConfig : WDF_IO_QUEUE_CONFIG :=
    { queueConfig with
      EvtIoDeviceControl :=
        some EVT_WDF_IO_QUEUE_IO_DEVICE_CONTROL.EmuControllerEvtIoDeviceControl }
  let queueAttributes :=
    WDF_OBJECT_ATTRIBUTES_INIT_CONTEXT_TYPE WDF_OBJECT_CONTEXT_TYPE.QUEUE_CONTEXT
  let r := WdfIoQueueCreate Device queueConfig queueAttributes w
  let status := r.1
  let queue := r.2.1
  if !NT_SUCCESS status then
    (status, Queue, r.2.2)
  else
    (status, queue, storeQueueContext r.2.2 queue Device)

/-- The routine `EmuControllerManualQueueInitialize` of lines 110-177, with the
same conventions as `EmuControllerQueueInitialize`. -/
def EmuControllerManualQueueInitialize (WdfIoQueueCreate : WdfIoQueueCreateFn)
    (Device : WDFDEVICE) (Queue : WDFQUEUE) (w : World) : NTSTATUS × WDFQUEUE × World :=
  let queueConfig :=
    WDF_IO_QUEUE_CONFIG_INIT WDF_IO_QUEUE_DISPATCH_TYPE.WdfIoQueueDispatchManual
  let queueAttributes :=
    WDF_OBJECT_ATTRIBUTES_INIT_CONTEXT_TYPE WDF_OBJECT_CONTEXT_TYPE.QUEUE_CONTEXT
  let r := WdfIoQueueCreate Device queueConfig queueAttributes w
  let status := r.1
  let queue := r.2.1
  if !NT_SUCCESS status then
    (status, Queue, r.2.2)
  else
    (status, queue, storeQueueContext r.2.2 queue Device)

/-! ## Routines of the driver that `Queue.c` only calls -/

/-- Modelled from the spec: `RequestCopyFromBuffer` is called by `Queue.c` and
not defined there.  Spec §4.3: given a source buffer and an exact byte length,
copy into the caller's output buffer; fail with Buffer-Too-Small if the output
capacity is less than the required length; fail with Invalid-Parameter if the
source length is zero; on success record the exact byte count copied as the
output length.  No other effect. -/
def RequestCopyFromBuffer (Request : WDFREQUEST) (SourceBuffer : PVOID)
    (NumBytesToCopyFrom : Nat) (w : World) : NTSTATUS × World :=
  if NumBytesToCopyFrom = 0 then
    (STATUS_INVALID_PARAMETER, w)
  else if (w.OutputBuffer Request).length < NumBytesToCopyFrom then
    (STATUS_BUFFER_TOO_SMALL, w)
  else
    let bytes := (List.range NumBytesToCopyFrom).map (w.Memory SourceBuffer)
    (STATUS_SUCCESS,
      { w with
        OutputBuffer := fun r =>
          if r = Request then bytes ++ (w.OutputBuffer Request).drop NumBytesToCopyFrom
          else w.OutputBuffer r
        Information := fun r =>
          if r = Request then NumBytesToCopyFrom else w.Information r })

/-- Modelled from the spec: `ReadReport` is called by `Queue.c` and not defined
there.  Spec §4.5, Enqueue, in the default (unbounded) policy: append the
request to the tail, copy no data, never fail.  The request is left pending
for the deferred queue, so the flag passed by address is cleared. -/
def ReadReport (QueueContext : PQUEUE_CONTEXT) (Request : WDFREQUEST)
    (CompleteRequest : Bool) (w : World) : NTSTATUS × Bool × World :=
  (STATUS_SUCCESS, false,
    { w with DeferredReadQueue := w.DeferredReadQueue ++ [Request] })

/-- Modelled from the spec: the periodic trigger is not part of `Queue.c`.
Spec §4.5, Trigger firing: an empty queue makes the firing a no-op.  Otherwise
the head request is looked at, the length it expects being its output
capacity.  If its output buffer cannot hold the available data it is failed
with Buffer-Too-Small and still dequeued.  Otherwise, if the current report
holds at least the expected length, the data is copied, the output length set,
the request completed with success and dequeued.  Otherwise the request stays
enqueued.  At most one request is completed per firing. -/
def TriggerFiring (w : World) : World × List Call :=
  match w.DeferredReadQueue with
  | [] => (w, [])
  | Request :: rest =>
    let expected := (w.OutputBuffer Request).length
    if expected < w.CurrentReport.length then
      ({ w with DeferredReadQueue := rest },
        [Call.WdfRequestComplete Request STATUS_BUFFER_TOO_SMALL])
    else if expected ≤ w.CurrentReport.length then
      ({ w with
          DeferredReadQueue := rest
          OutputBuffer := fun r =>
            if r = Request then w.CurrentReport.take expected else w.OutputBuffer r
          Information := fun r =>
            if r = Request then expected else w.Information r },
        [Call.WdfRequestComplete Request STATUS_SUCCESS])
    else
      (w, [])

/-- Modelled from the spec: cancellation is not part of `Queue.c`.  Spec §4.5,
Cancellation: a request withdrawn while enqueued is removed from the queue and
is never completed by the queue. -/
def Cancel (Request : WDFREQUEST) (w : World) : World × List Call :=
  ({ w with DeferredReadQueue := w.DeferredReadQueue.filter (fun r => r ≠ Request) }, [])

/-- The events of the deferred read queue (spec §4.5), plus a change of the
current report by the write path (spec §4.4). -/
inductive QueueEvent where
  | enqueue (QueueContext : PQUEUE_CONTEXT) (Request : WDFREQUEST)
  | fire
  | cancel (Request : WDFREQUEST)
  | store (report : List UCHAR)
  deriving DecidableEq, Repr

/-- One event: the world it leaves and the completions it signals. -/
def QueueEvent.step (w : World) : QueueEvent → World × List Call
  | QueueEvent.enqueue QueueContext Request => ((ReadReport QueueContext Request true w).2.2, [])
  | QueueEvent.fire => TriggerFiring w
  | QueueEvent.cancel Request => Cancel Request w
  | QueueEvent.store report => ({ w with CurrentReport := report }, [])

/-- A sequence of events from a world: the final world and all completions
signalled, in order. -/
def runEvents (w : World) : List QueueEvent → World × List Call
  | [] => (w, [])
  | e :: es =>
    let r := QueueEvent.step w e
    let r2 := runEvents r.1 es
    (r2.1, r.2 ++ r2.2)

/-- The requests a sequence of events enqueues, in order. -/
def enqueuedBy : List QueueEvent → List WDFREQUEST
  | [] => []
  | QueueEvent.enqueue _ Request :: es => Request :: enqueuedBy es
  | _ :: es => enqueuedBy es

/-- The completions among a list of calls, request and status, in order. -/
def completionsIn : List Call → List (WDFREQUEST × NTSTATUS)
  | [] => []
  | Call.WdfRequestComplete Request Status :: cs => (Request, Status) :: completionsIn cs
  | _ :: cs => completionsIn cs

/-- The requests a list of calls completes, in order. -/
def completedIn : List Call → List WDFREQUEST
  | [] => []
  | Call.WdfRequestComplete Request _ :: cs => Request :: completedIn cs
  | _ :: cs => completedIn cs

/-! ## Concrete data -/

/-- A world with one queue and device: the descriptor of every device has the
given lengths, the bytes behind every source address are those of a nine-byte
HID descriptor followed by zeros, and every request has an output buffer of
`capacity` bytes of value `0xEE`. -/
def sampleWorld (bLength wReportLength capacity : Nat) : World where
  WdfIoQueueGetDevice := fun _ => 1
  QueueContext := fun q => ⟨q, 1⟩
  DeviceContext := fun _ => ⟨⟨bLength, 0x21, 0x0101, 0, 1, ⟨0x22, wReportLength⟩⟩⟩
  Memory := fun _ i => [bLength, 0x21, 0x01, 0x01, 0x00, 0x01, 0x22, wReportLength, 0x00].getD i 0
  OutputBuffer := fun _ => List.replicate capacity 0xEE
  Information := fun _ => 0
  DeferredReadQueue := []
  CurrentReport := []

/-- Handlers for the concrete data: the two modelled routines, and constant
results for the others. -/
def sampleHandlers : Handlers where
  RequestCopyFromBuffer := RequestCopyFromBuffer
  ReadReport := ReadReport
  WriteReport := fun _ _ w => (STATUS_SUCCESS, w)
  GetFeature := fun _ _ w => (STATUS_INVALID_PARAMETER, w)
  SetFeature := fun _ _ w => (STATUS_SUCCESS, w)
  GetInputReport := fun _ _ w => (STATUS_BUFFER_TOO_SMALL, w)
  SetOutputReport := fun _ _ w => (STATUS_SUCCESS, w)
  GetString := fun _ w => (STATUS_NOT_IMPLEMENTED, w)
  GetIndexedString := fun _ w => (STATUS_NOT_IMPLEMENTED, w)

/-- The eleven codes that have a `case` of their own with a handler call. -/
def routedCodes : List Nat :=
  [IOCTL_HID_GET_DEVICE_DESCRIPTOR, IOCTL_HID_GET_DEVICE_ATTRIBUTES,
   IOCTL_HID_GET_REPORT_DESCRIPTOR, IOCTL_HID_READ_REPORT, IOCTL_HID_WRITE_REPORT,
   IOCTL_UMDF_HID_GET_FEATURE, IOCTL_UMDF_HID_SET_FEATURE,
   IOCTL_UMDF_HID_GET_INPUT_REPORT, IOCTL_UMDF_HID_SET_OUTPUT_REPORT,
   IOCTL_HID_GET_STRING, IOCTL_HID_GET_INDEXED_STRING]

/-- The device behind `Queue` is ready: both lengths the gate tests are
non-zero. -/
def Ready (w : World) (Queue : WDFQUEUE) : Prop :=
  (w.DeviceContext (w.WdfIoQueueGetDevice Queue)).HidDescriptor.bLength ≠ 0 ∧
  (w.DeviceContext (w.WdfIoQueueGetDevice Queue)).HidDescriptor.DescriptorList0.wReportLength ≠ 0

instance (w : World) (Queue : WDFQUEUE) : Decidable (Ready w Queue) := by
  unfold Ready; infer_instance

/-- A creation routine for the concrete data: manual queues cannot be created,
any other queue is created with handle 5. -/
def sampleCreate : WdfIoQueueCreateFn := fun _ cfg _ w =>
  if cfg.DispatchType = WDF_IO_QUEUE_DISPATCH_TYPE.WdfIoQueueDispatchManual then
    (STATUS_INVALID_PARAMETER, 0, w)
  else
    (STATUS_SUCCESS, 5, w)

/-- The outcome spec §8 requires of an immediate copy of `n` bytes from `src`
into the output buffer of `Request`, where `w` is the world before the
dispatch and `res` the world and the calls of the dispatch.  With capacity at
least `n`: the request is completed once, with success, the first `n` bytes of
the output buffer are the `n` source bytes, the rest of the buffer is as it
was, and the recorded output length is `n`.  With capacity below `n`: the
request is completed once, with Buffer-Too-Small, and no output buffer and no
recorded length has changed. -/
def ImmediateCopyOutcome (w : World) (Request : WDFREQUEST) (src : PVOID) (n : Nat)
    (res : World × List Call) : Prop :=
  (n ≤ (w.OutputBuffer Request).length →
    completionsIn res.2 = [(Request, STATUS_SUCCESS)] ∧
    (res.1.OutputBuffer Request).take n = (List.range n).map (w.Memory src) ∧
    (res.1.OutputBuffer Request).drop n = (w.OutputBuffer Request).drop n ∧
    res.1.Information Request = n) ∧
  ((w.OutputBuffer Request).length < n →
    completionsIn res.2 = [(Request, STATUS_BUFFER_TOO_SMALL)] ∧
    res.1.OutputBuffer = w.OutputBuffer ∧
    res.1.Information = w.Information)

/-! ## The dispatcher: gate, switch, final check -/

/-- On a not-ready device the routine completes with the initial status and
returns. -/
theorem dispatch_of_notReady (h : Handlers) (Queue : WDFQUEUE) (Request : WDFREQUEST)
    (OutputBufferLength InputBufferLength IoControlCode : Nat) (w : World)
    (hnr : ¬ Ready w Queue) :
    EmuControllerEvtIoDeviceControl h Queue Request OutputBufferLength InputBufferLength
        IoControlCode w
      = (w, [Call.WdfRequestComplete Request STATUS_NOT_IMPLEMENTED]) := by
  have hc : ((w.DeviceContext (w.WdfIoQueueGetDevice Queue)).HidDescriptor.bLength == 0 ||
      (w.DeviceContext (w.WdfIoQueueGetDevice Queue)).HidDescriptor.DescriptorList0.wReportLength
        == 0) = true := by
    simp only [Ready, not_and_or, not_not] at hnr
    simpa using hnr
  simp only [EmuControllerEvtIoDeviceControl, hc, if_true]

/-- On a ready device the routine runs the switch and then the final check. -/
theorem dispatch_of_ready (h : Handlers) (Queue : WDFQUEUE) (Request : WDFREQUEST)
    (OutputBufferLength InputBufferLength IoControlCode : Nat) (w : World)
    (hr : Ready w Queue) :
    EmuControllerEvtIoDeviceControl h Queue Request OutputBufferLength InputBufferLength
        IoControlCode w
      = (if (ioctlSwitch h Queue (w.WdfIoQueueGetDevice Queue) Request IoControlCode
              STATUS_NOT_IMPLEMENTED true w).completeRequest = true then
          ((ioctlSwitch h Queue (w.WdfIoQueueGetDevice Queue) Request IoControlCode
              STATUS_NOT_IMPLEMENTED true w).world,
           (ioctlSwitch h Queue (w.WdfIoQueueGetDevice Queue) Request IoControlCode
              STATUS_NOT_IMPLEMENTED true w).calls ++
            [Call.WdfRequestComplete Request
              (ioctlSwitch h Queue (w.WdfIoQueueGetDevice Queue) Request IoControlCode
                STATUS_NOT_IMPLEMENTED true w).status])
        else
          ((ioctlSwitch h Queue (w.WdfIoQueueGetDevice Queue) Request IoControlCode
              STATUS_NOT_IMPLEMENTED true w).world,
           (ioctlSwitch h Queue (w.WdfIoQueueGetDevice Queue) Request IoControlCode
              STATUS_NOT_IMPLEMENTED true w).calls)) := by
  have hc : ((w.DeviceContext (w.WdfIoQueueGetDevice Queue)).HidDescriptor.bLength == 0 ||
      (w.DeviceContext (w.WdfIoQueueGetDevice Queue)).HidDescriptor.DescriptorList0.wReportLength
        == 0) = false := by
    obtain ⟨h1, h2⟩ := hr
    simp [h1, h2]
  simp only [EmuControllerEvtIoDeviceControl, hc]
  rfl

/-- The switch falls to `default` on every code outside `routedCodes`. -/
theorem ioctlSwitch_default (h : Handlers) (queueContext : PQUEUE_CONTEXT)
    (deviceContext : PDEVICE_CONTEXT) (Request : WDFREQUEST) (IoControlCode : Nat)
    (status : NTSTATUS) (completeRequest : Bool) (w : World)
    (hcode : IoControlCode ∉ routedCodes) :
    ioctlSwitch h queueContext deviceContext Request IoControlCode status completeRequest w
      = ⟨STATUS_NOT_IMPLEMENTED, completeRequest, w, []⟩ := by
  simp only [routedCodes, List.mem_cons, List.mem_singleton, not_or, List.not_mem_nil,
    or_false] at hcode
  obtain ⟨h1, h2, h3, h4, h5, h6, h7, h8, h9, h10, h11⟩ := hcode
  simp only [ioctlSwitch, h1, h2, h3, h4, h5, h6, h7, h8, h9, h10, h11, if_false]

/-- The case labels with a handler call are pairwise different, and so are
they together with the four labels that share the `default` branch: testing
them one after the other is what the `switch` does. -/
theorem routedCodes_nodup :
    (routedCodes ++ [IOCTL_HID_SEND_IDLE_NOTIFICATION_REQUEST, IOCTL_HID_ACTIVATE_DEVICE,
      IOCTL_HID_DEACTIVATE_DEVICE, IOCTL_GET_PHYSICAL_DESCRIPTOR]).Nodup := by
  decide

/-- CLAIM C1, as amended: on a not-ready device (declared descriptor length zero or first
report-length entry zero), for every request, opcode and buffer sizes, the
dispatcher makes exactly one call, `WdfRequestComplete` on the request with
`STATUS_NOT_IMPLEMENTED` (the initial value of its status local), calls no
handler, and leaves the world as it was. -/
theorem C1_not_ready_completes_not_implemented (h : Handlers) (Queue : WDFQUEUE)
    (Request : WDFREQUEST) (OutputBufferLength InputBufferLength IoControlCode : Nat)
    (w : World)
    (hnr : (w.DeviceContext (w.WdfIoQueueGetDevice Queue)).HidDescriptor.bLength = 0 ∨
      (w.DeviceContext (w.WdfIoQueueGetDevice Queue)).HidDescriptor.DescriptorList0.wReportLength
        = 0) :
    EmuControllerEvtIoDeviceControl h Queue Request OutputBufferLength InputBufferLength
        IoControlCode w
      = (w, [Call.WdfRequestComplete Request STATUS_NOT_IMPLEMENTED]) := by
  apply dispatch_of_notReady
  intro hr
  rcases hnr with h0 | h0
  · exact hr.1 h0
  · exact hr.2 h0

/-- Witness for C1 as amended: descriptor length 0, report-length entry 63, a
Get-Device-Descriptor request. -/
theorem C1_not_ready_completes_not_implemented_witness :
    ((sampleWorld 0 63 9).DeviceContext
        ((sampleWorld 0 63 9).WdfIoQueueGetDevice 1)).HidDescriptor.bLength = 0 ∧
    EmuControllerEvtIoDeviceControl sampleHandlers 1 7 9 0 IOCTL_HID_GET_DEVICE_DESCRIPTOR
        (sampleWorld 0 63 9)
      = (sampleWorld 0 63 9, [Call.WdfRequestComplete 7 STATUS_NOT_IMPLEMENTED]) :=
  ⟨by decide,
   C1_not_ready_completes_not_implemented sampleHandlers 1 7 9 0
     IOCTL_HID_GET_DEVICE_DESCRIPTOR (sampleWorld 0 63 9) (Or.inl (by decide))⟩

/-- Counterexample to C1 as stated: with descriptor length 0 the device is not
ready, and the one completion carries `STATUS_NOT_IMPLEMENTED`, the very status
the `default` case gives an unknown code on a ready device, not a Not-Ready
status. -/
theorem C1_counterexample :
    ((sampleWorld 0 63 9).DeviceContext
        ((sampleWorld 0 63 9).WdfIoQueueGetDevice 1)).HidDescriptor.bLength = 0 ∧
    (EmuControllerEvtIoDeviceControl sampleHandlers 1 7 9 0 IOCTL_HID_GET_DEVICE_DESCRIPTOR
        (sampleWorld 0 63 9)).2 ≠ [Call.WdfRequestComplete 7 STATUS_DEVICE_NOT_READY] ∧
    (EmuControllerEvtIoDeviceControl sampleHandlers 1 7 9 0 IOCTL_HID_GET_DEVICE_DESCRIPTOR
        (sampleWorld 0 63 9)).2
      = (EmuControllerEvtIoDeviceControl sampleHandlers 1 7 9 0 0
        (sampleWorld 9 63 9)).2 ∧
    (EmuControllerEvtIoDeviceControl sampleHandlers 1 7 9 0 IOCTL_HID_GET_DEVICE_DESCRIPTOR
        (sampleWorld 0 63 9)).2 = [Call.WdfRequestComplete 7 STATUS_NOT_IMPLEMENTED] := by
  decide

/-- CLAIM C2: on a ready device, for every code outside the eleven routed ones
the dispatcher calls no handler, leaves the world as it was, and makes exactly
one call, `WdfRequestComplete` on the request with `STATUS_NOT_IMPLEMENTED`;
Send-Idle-Notification, Activate-Device, Deactivate-Device and
Get-Physical-Descriptor are such codes. -/
theorem C2_unrouted_code_not_implemented (h : Handlers) (Queue : WDFQUEUE)
    (Request : WDFREQUEST) (OutputBufferLength InputBufferLength IoControlCode : Nat)
    (w : World) (hr : Ready w Queue) (hcode : IoControlCode ∉ routedCodes) :
    EmuControllerEvtIoDeviceControl h Queue Request OutputBufferLength InputBufferLength
        IoControlCode w
      = (w, [Call.WdfRequestComplete Request STATUS_NOT_IMPLEMENTED]) ∧
    IOCTL_HID_SEND_IDLE_NOTIFICATION_REQUEST ∉ routedCodes ∧
    IOCTL_HID_ACTIVATE_DEVICE ∉ routedCodes ∧
    IOCTL_HID_DEACTIVATE_DEVICE ∉ routedCodes ∧
    IOCTL_GET_PHYSICAL_DESCRIPTOR ∉ routedCodes := by
  refine ⟨?_, by decide, by decide, by decide, by decide⟩
  rw [dispatch_of_ready h Queue Request _ _ _ w hr, ioctlSwitch_default _ _ _ _ _ _ _ _ hcode]
  simp

/-- Witness for C2: Send-Idle-Notification on a device with descriptor length
9 and report-length entry 63. -/
theorem C2_unrouted_code_not_implemented_witness :
    Ready (sampleWorld 9 63 9) 1 ∧
    IOCTL_HID_SEND_IDLE_NOTIFICATION_REQUEST ∉ routedCodes ∧
    EmuControllerEvtIoDeviceControl sampleHandlers 1 7 9 0
        IOCTL_HID_SEND_IDLE_NOTIFICATION_REQUEST (sampleWorld 9 63 9)
      = (sampleWorld 9 63 9, [Call.WdfRequestComplete 7 STATUS_NOT_IMPLEMENTED]) :=
  ⟨by decide, by decide,
   (C2_unrouted_code_not_implemented sampleHandlers 1 7 9 0
     IOCTL_HID_SEND_IDLE_NOTIFICATION_REQUEST (sampleWorld 9 63 9)
     (by decide) (by decide)).1⟩

/-- The final check of lines 337-340 when the switch leaves the flag set. -/
theorem dispatch_of_ready_flag_set (h : Handlers) (Queue : WDFQUEUE) (Request : WDFREQUEST)
    (OutputBufferLength InputBufferLength IoControlCode : Nat) (w : World)
    (hr : Ready w Queue) (l : Locals)
    (hl : ioctlSwitch h Queue (w.WdfIoQueueGetDevice Queue) Request IoControlCode
      STATUS_NOT_IMPLEMENTED true w = l)
    (hflag : l.completeRequest = true) :
    EmuControllerEvtIoDeviceControl h Queue Request OutputBufferLength InputBufferLength
        IoControlCode w
      = (l.world, l.calls ++ [Call.WdfRequestComplete Request l.status]) := by
  rw [dispatch_of_ready h Queue Request _ _ _ w hr, hl, if_pos hflag]

/-- Get-Device-Descriptor on a ready device: one copy call, one completion. -/
theorem dispatch_get_device_descriptor (h : Handlers) (Queue : WDFQUEUE) (Request : WDFREQUEST)
    (OutputBufferLength InputBufferLength : Nat) (w : World) (hr : Ready w Queue) :
    EmuControllerEvtIoDeviceControl h Queue Request OutputBufferLength InputBufferLength
        IOCTL_HID_GET_DEVICE_DESCRIPTOR w
      = ((h.RequestCopyFromBuffer Request (PVOID.HidDescriptor (w.WdfIoQueueGetDevice Queue))
            (w.DeviceContext (w.WdfIoQueueGetDevice Queue)).HidDescriptor.bLength w).2,
         [Call.RequestCopyFromBuffer Request (PVOID.HidDescriptor (w.WdfIoQueueGetDevice Queue))
            (w.DeviceContext (w.WdfIoQueueGetDevice Queue)).HidDescriptor.bLength,
          Call.WdfRequestComplete Request
            (h.RequestCopyFromBuffer Request (PVOID.HidDescriptor (w.WdfIoQueueGetDevice Queue))
              (w.DeviceContext (w.WdfIoQueueGetDevice Queue)).HidDescriptor.bLength w).1]) :=
  dispatch_of_ready_flag_set h Queue Request _ _ _ w hr _ rfl rfl

/-- Get-Device-Attributes on a ready device: one copy call, one completion. -/
theorem dispatch_get_device_attributes (h : Handlers) (Queue : WDFQUEUE) (Request : WDFREQUEST)
    (OutputBufferLength InputBufferLength : Nat) (w : World) (hr : Ready w Queue) :
    EmuControllerEvtIoDeviceControl h Queue Request OutputBufferLength InputBufferLength
        IOCTL_HID_GET_DEVICE_ATTRIBUTES w
      = ((h.RequestCopyFromBuffer Request
            (PVOID.HidDeviceAttributes (w.QueueContext Queue).DeviceContext)
            sizeof_HID_DEVICE_ATTRIBUTES w).2,
         [Call.RequestCopyFromBuffer Request
            (PVOID.HidDeviceAttributes (w.QueueContext Queue).DeviceContext)
            sizeof_HID_DEVICE_ATTRIBUTES,
          Call.WdfRequestComplete Request
            (h.RequestCopyFromBuffer Request
              (PVOID.HidDeviceAttributes (w.QueueContext Queue).DeviceContext)
              sizeof_HID_DEVICE_ATTRIBUTES w).1]) :=
  dispatch_of_ready_flag_set h Queue Request _ _ _ w hr _ rfl rfl

/-- Get-Report-Descriptor on a ready device: one copy call, one completion. -/
theorem dispatch_get_report_descriptor (h : Handlers) (Queue : WDFQUEUE) (Request : WDFREQUEST)
    (OutputBufferLength InputBufferLength : Nat) (w : World) (hr : Ready w Queue) :
    EmuControllerEvtIoDeviceControl h Queue Request OutputBufferLength InputBufferLength
        IOCTL_HID_GET_REPORT_DESCRIPTOR w
      = ((h.RequestCopyFromBuffer Request
            (PVOID.ReportDescriptor (w.WdfIoQueueGetDevice Queue))
            (w.DeviceContext (w.WdfIoQueueGetDevice Queue)).HidDescriptor.DescriptorList0.wReportLength
            w).2,
         [Call.RequestCopyFromBuffer Request
            (PVOID.ReportDescriptor (w.WdfIoQueueGetDevice Queue))
            (w.DeviceContext (w.WdfIoQueueGetDevice Queue)).HidDescriptor.DescriptorList0.wReportLength,
          Call.WdfRequestComplete Request
            (h.RequestCopyFromBuffer Request
              (PVOID.ReportDescriptor (w.WdfIoQueueGetDevice Queue))
              (w.DeviceContext (w.WdfIoQueueGetDevice Queue)).HidDescriptor.DescriptorList0.wReportLength
              w).1]) :=
  dispatch_of_ready_flag_set h Queue Request _ _ _ w hr _ rfl rfl

/-- CLAIM C3: on a ready device, for each of the ten recognised codes other
than Read-Report the dispatcher makes exactly two calls: first the handler the
switch assigns to the code (`RequestCopyFromBuffer` for the two descriptor
codes and the attribute code, `WriteReport`, `GetFeature`, `SetFeature`,
`GetInputReport`, `SetOutputReport`, `GetString`, `GetIndexedString`), once,
then `WdfRequestComplete` on the request with the status that handler
returned; the world left is the one the handler left. -/
theorem C3_non_deferred_dispatch (h : Handlers) (Queue : WDFQUEUE) (Request : WDFREQUEST)
    (OutputBufferLength InputBufferLength : Nat) (w : World) (hr : Ready w Queue) :
    (EmuControllerEvtIoDeviceControl h Queue Request OutputBufferLength InputBufferLength
        IOCTL_HID_GET_DEVICE_DESCRIPTOR w
      = ((h.RequestCopyFromBuffer Request (PVOID.HidDescriptor (w.WdfIoQueueGetDevice Queue))
            (w.DeviceContext (w.WdfIoQueueGetDevice Queue)).HidDescriptor.bLength w).2,
         [Call.RequestCopyFromBuffer Request (PVOID.HidDescriptor (w.WdfIoQueueGetDevice Queue))
            (w.DeviceContext (w.WdfIoQueueGetDevice Queue)).HidDescriptor.bLength,
          Call.WdfRequestComplete Request
            (h.RequestCopyFromBuffer Request (PVOID.HidDescriptor (w.WdfIoQueueGetDevice Queue))
              (w.DeviceContext (w.WdfIoQueueGetDevice Queue)).HidDescriptor.bLength w).1])) ∧
    (EmuControllerEvtIoDeviceControl h Queue Request OutputBufferLength InputBufferLength
        IOCTL_HID_GET_DEVICE_ATTRIBUTES w
      = ((h.RequestCopyFromBuffer Request
            (PVOID.HidDeviceAttributes (w.QueueContext Queue).DeviceContext)
            sizeof_HID_DEVICE_ATTRIBUTES w).2,
         [Call.RequestCopyFromBuffer Request
            (PVOID.HidDeviceAttributes (w.QueueContext Queue).DeviceContext)
            sizeof_HID_DEVICE_ATTRIBUTES,
          Call.WdfRequestComplete Request
            (h.RequestCopyFromBuffer Request
              (PVOID.HidDeviceAttributes (w.QueueContext Queue).DeviceContext)
              sizeof_HID_DEVICE_ATTRIBUTES w).1])) ∧
    (EmuControllerEvtIoDeviceControl h Queue Request OutputBufferLength InputBufferLength
        IOCTL_HID_GET_REPORT_DESCRIPTOR w
      = ((h.RequestCopyFromBuffer Request
            (PVOID.ReportDescriptor (w.WdfIoQueueGetDevice Queue))
            (w.DeviceContext (w.WdfIoQueueGetDevice Queue)).HidDescriptor.DescriptorList0.wReportLength
            w).2,
         [Call.RequestCopyFromBuffer Request
            (PVOID.ReportDescriptor (w.WdfIoQueueGetDevice Queue))
            (w.DeviceContext (w.WdfIoQueueGetDevice Queue)).HidDescriptor.DescriptorList0.wReportLength,
          Call.WdfRequestComplete Request
            (h.RequestCopyFromBuffer Request
              (PVOID.ReportDescriptor (w.WdfIoQueueGetDevice Queue))
              (w.DeviceContext (w.WdfIoQueueGetDevice Queue)).HidDescriptor.DescriptorList0.wReportLength
              w).1])) ∧
    (EmuControllerEvtIoDeviceControl h Queue Request OutputBufferLength InputBufferLength
        IOCTL_HID_WRITE_REPORT w
      = ((h.WriteReport Queue Request w).2,
         [Call.WriteReport Queue Request,
          Call.WdfRequestComplete Request (h.WriteReport Queue Request w).1])) ∧
    (EmuControllerEvtIoDeviceControl h Queue Request OutputBufferLength InputBufferLength
        IOCTL_UMDF_HID_GET_FEATURE w
      = ((h.GetFeature Queue Request w).2,
         [Call.GetFeature Queue Request,
          Call.WdfRequestComplete Request (h.GetFeature Queue Request w).1])) ∧
    (EmuControllerEvtIoDeviceControl h Queue Request OutputBufferLength InputBufferLength
        IOCTL_UMDF_HID_SET_FEATURE w
      = ((h.SetFeature Queue Request w).2,
         [Call.SetFeature Queue Request,
          Call.WdfRequestComplete Request (h.SetFeature Queue Request w).1])) ∧
    (EmuControllerEvtIoDeviceControl h Queue Request OutputBufferLength InputBufferLength
        IOCTL_UMDF_HID_GET_INPUT_REPORT w
      = ((h.GetInputReport Queue Request w).2,
         [Call.GetInputReport Queue Request,
          Call.WdfRequestComplete Request (h.GetInputReport Queue Request w).1])) ∧
    (EmuControllerEvtIoDeviceControl h Queue Request OutputBufferLength InputBufferLength
        IOCTL_UMDF_HID_SET_OUTPUT_REPORT w
      = ((h.SetOutputReport Queue Request w).2,
         [Call.SetOutputReport Queue Request,
          Call.WdfRequestComplete Request (h.SetOutputReport Queue Request w).1])) ∧
    (EmuControllerEvtIoDeviceControl h Queue Request OutputBufferLength InputBufferLength
        IOCTL_HID_GET_STRING w
      = ((h.GetString Request w).2,
         [Call.GetString Request,
          Call.WdfRequestComplete Request (h.GetString Request w).1])) ∧
    (EmuControllerEvtIoDeviceControl h Queue Request OutputBufferLength InputBufferLength
        IOCTL_HID_GET_INDEXED_STRING w
      = ((h.GetIndexedString Request w).2,
         [Call.GetIndexedString Request,
          Call.WdfRequestComplete Request (h.GetIndexedString Request w).1])) := by
  refine ⟨?_, ?_, ?_, ?_, ?_, ?_, ?_, ?_, ?_, ?_⟩ <;>
    exact dispatch_of_ready_flag_set h Queue Request _ _ _ w hr _ rfl rfl

/-- Witness for C3: a ready device (descriptor length 9, report-length entry
63); the Get-Feature handler of `sampleHandlers` returns
`STATUS_INVALID_PARAMETER`, which is the status the request is completed
with. -/
theorem C3_non_deferred_dispatch_witness :
    Ready (sampleWorld 9 63 9) 1 ∧
    EmuControllerEvtIoDeviceControl sampleHandlers 1 7 9 0 IOCTL_UMDF_HID_GET_FEATURE
        (sampleWorld 9 63 9)
      = (sampleWorld 9 63 9,
         [Call.GetFeature 1 7, Call.WdfRequestComplete 7 STATUS_INVALID_PARAMETER]) :=
  ⟨by decide,
   (C3_non_deferred_dispatch sampleHandlers 1 7 9 0 (sampleWorld 9 63 9)
     (by decide)).2.2.2.2.1⟩

/-- CLAIM C4: on a ready device, with the enqueue of the default (unbounded)
policy as `ReadReport`, a Read-Report request is handed to the read path (one
`ReadReport` call), appended to the tail of the deferred read queue, and left
pending: the dispatcher makes no `WdfRequestComplete` call in the dispatch. -/
theorem C4_read_report_left_pending (h : Handlers) (Queue : WDFQUEUE) (Request : WDFREQUEST)
    (OutputBufferLength InputBufferLength : Nat) (w : World) (hr : Ready w Queue) :
    EmuControllerEvtIoDeviceControl { h with ReadReport := ReadReport } Queue Request
        OutputBufferLength InputBufferLength IOCTL_HID_READ_REPORT w
      = ({ w with DeferredReadQueue := w.DeferredReadQueue ++ [Request] },
         [Call.ReadReport Queue Request]) ∧
    ∀ (r : WDFREQUEST) (s : NTSTATUS),
      Call.WdfRequestComplete r s ∉
        (EmuControllerEvtIoDeviceControl { h with ReadReport := ReadReport } Queue Request
          OutputBufferLength InputBufferLength IOCTL_HID_READ_REPORT w).2 := by
  have heq : EmuControllerEvtIoDeviceControl { h with ReadReport := ReadReport } Queue Request
        OutputBufferLength InputBufferLength IOCTL_HID_READ_REPORT w
      = ({ w with DeferredReadQueue := w.DeferredReadQueue ++ [Request] },
         [Call.ReadReport Queue Request]) := by
    rw [dispatch_of_ready _ Queue Request _ _ _ w hr]
    rfl
  refine ⟨heq, ?_⟩
  intro r s
  rw [heq]
  simp

/-- Witness for C4: a Read-Report request 7 on a ready device whose deferred
queue is empty. -/
theorem C4_read_report_left_pending_witness :
    Ready (sampleWorld 9 63 63) 1 ∧
    (EmuControllerEvtIoDeviceControl { sampleHandlers with ReadReport := ReadReport } 1 7
        63 0 IOCTL_HID_READ_REPORT (sampleWorld 9 63 63)).2 = [Call.ReadReport 1 7] ∧
    (EmuControllerEvtIoDeviceControl { sampleHandlers with ReadReport := ReadReport } 1 7
        63 0 IOCTL_HID_READ_REPORT (sampleWorld 9 63 63)).1.DeferredReadQueue = [7] :=
  ⟨by decide,
   congrArg Prod.snd (C4_read_report_left_pending sampleHandlers 1 7 63 0
     (sampleWorld 9 63 63) (by decide)).1,
   congrArg (fun p => p.1.DeferredReadQueue) (C4_read_report_left_pending sampleHandlers 1 7
     63 0 (sampleWorld 9 63 63) (by decide)).1⟩

/-- CLAIM C5: on a ready device, whatever the handlers, the request and the
buffer sizes, the copy handler is called with the pair the table prescribes and
with no other: for Get-Device-Descriptor the address of the device descriptor
and its declared length `bLength`; for Get-Report-Descriptor the report
descriptor and the first report-length entry; for Get-Device-Attributes the
address of the attributes struct (reached through the queue context's
`DeviceContext` pointer) and the constant `sizeof(HID_DEVICE_ATTRIBUTES)`. -/
theorem C5_copy_handler_arguments (h : Handlers) (Queue : WDFQUEUE) (Request : WDFREQUEST)
    (OutputBufferLength InputBufferLength : Nat) (w : World) (hr : Ready w Queue) :
    (∀ c, c ∈ (EmuControllerEvtIoDeviceControl h Queue Request OutputBufferLength
          InputBufferLength IOCTL_HID_GET_DEVICE_DESCRIPTOR w).2 →
        (∃ r p n, c = Call.RequestCopyFromBuffer r p n) →
        c = Call.RequestCopyFromBuffer Request
          (PVOID.HidDescriptor (w.WdfIoQueueGetDevice Queue))
          (w.DeviceContext (w.WdfIoQueueGetDevice Queue)).HidDescriptor.bLength) ∧
    Call.RequestCopyFromBuffer Request (PVOID.HidDescriptor (w.WdfIoQueueGetDevice Queue))
        (w.DeviceContext (w.WdfIoQueueGetDevice Queue)).HidDescriptor.bLength
      ∈ (EmuControllerEvtIoDeviceControl h Queue Request OutputBufferLength
          InputBufferLength IOCTL_HID_GET_DEVICE_DESCRIPTOR w).2 ∧
    (∀ c, c ∈ (EmuControllerEvtIoDeviceControl h Queue Request OutputBufferLength
          InputBufferLength IOCTL_HID_GET_REPORT_DESCRIPTOR w).2 →
        (∃ r p n, c = Call.RequestCopyFromBuffer r p n) →
        c = Call.RequestCopyFromBuffer Request
          (PVOID.ReportDescriptor (w.WdfIoQueueGetDevice Queue))
          (w.DeviceContext
            (w.WdfIoQueueGetDevice Queue)).HidDescriptor.DescriptorList0.wReportLength) ∧
    Call.RequestCopyFromBuffer Request (PVOID.ReportDescriptor (w.WdfIoQueueGetDevice Queue))
        (w.DeviceContext (w.WdfIoQueueGetDevice Queue)).HidDescriptor.DescriptorList0.wReportLength
      ∈ (EmuControllerEvtIoDeviceControl h Queue Request OutputBufferLength
          InputBufferLength IOCTL_HID_GET_REPORT_DESCRIPTOR w).2 ∧
    (∀ c, c ∈ (EmuControllerEvtIoDeviceControl h Queue Request OutputBufferLength
          InputBufferLength IOCTL_HID_GET_DEVICE_ATTRIBUTES w).2 →
        (∃ r p n, c = Call.RequestCopyFromBuffer r p n) →
        c = Call.RequestCopyFromBuffer Request
          (PVOID.HidDeviceAttributes (w.QueueContext Queue).DeviceContext)
          sizeof_HID_DEVICE_ATTRIBUTES) ∧
    Call.RequestCopyFromBuffer Request
        (PVOID.HidDeviceAttributes (w.QueueContext Queue).DeviceContext)
        sizeof_HID_DEVICE_ATTRIBUTES
      ∈ (EmuControllerEvtIoDeviceControl h Queue Request OutputBufferLength
          InputBufferLength IOCTL_HID_GET_DEVICE_ATTRIBUTES w).2 ∧
    sizeof_HID_DEVICE_ATTRIBUTES = 32 := by
  rw [dispatch_get_device_descriptor h Queue Request _ _ w hr,
    dispatch_get_report_descriptor h Queue Request _ _ w hr,
    dispatch_get_device_attributes h Queue Request _ _ w hr]
  refine ⟨?_, ?_, ?_, ?_, ?_, ?_, rfl⟩
  · rintro c hc ⟨r, p, n, rfl⟩
    simpa using hc
  · simp
  · rintro c hc ⟨r, p, n, rfl⟩
    simpa using hc
  · simp
  · rintro c hc ⟨r, p, n, rfl⟩
    simpa using hc
  · simp

/-- Witness for C5: the three copy requests on a ready device with descriptor
length 9 and report-length entry 63. -/
theorem C5_copy_handler_arguments_witness :
    Ready (sampleWorld 9 63 9) 1 ∧
    Call.RequestCopyFromBuffer 7 (PVOID.HidDescriptor 1) 9
      ∈ (EmuControllerEvtIoDeviceControl sampleHandlers 1 7 9 0
          IOCTL_HID_GET_DEVICE_DESCRIPTOR (sampleWorld 9 63 9)).2 ∧
    Call.RequestCopyFromBuffer 7 (PVOID.ReportDescriptor 1) 63
      ∈ (EmuControllerEvtIoDeviceControl sampleHandlers 1 7 9 0
          IOCTL_HID_GET_REPORT_DESCRIPTOR (sampleWorld 9 63 9)).2 ∧
    Call.RequestCopyFromBuffer 7 (PVOID.HidDeviceAttributes 1) 32
      ∈ (EmuControllerEvtIoDeviceControl sampleHandlers 1 7 9 0
          IOCTL_HID_GET_DEVICE_ATTRIBUTES (sampleWorld 9 63 9)).2 :=
  ⟨by decide,
   (C5_copy_handler_arguments sampleHandlers 1 7 9 0 (sampleWorld 9 63 9) (by decide)).2.1,
   (C5_copy_handler_arguments sampleHandlers 1 7 9 0 (sampleWorld 9 63 9)
     (by decide)).2.2.2.1,
   (C5_copy_handler_arguments sampleHandlers 1 7 9 0 (sampleWorld 9 63 9)
     (by decide)).2.2.2.2.2.1⟩

/-- CLAIM C8: for every device state, handlers, request and buffer sizes, any
`RequestCopyFromBuffer` call the dispatcher makes for Get-Device-Descriptor or
for Get-Report-Descriptor has a non-zero length argument, namely the non-zero
`bLength`, respectively the non-zero `DescriptorList[0].wReportLength`; so the
copy handler is never entered with a zero length for these two codes. -/
theorem C8_copy_length_nonzero (h : Handlers) (Queue : WDFQUEUE) (Request : WDFREQUEST)
    (OutputBufferLength InputBufferLength IoControlCode : Nat) (w : World)
    (hcode : IoControlCode = IOCTL_HID_GET_DEVICE_DESCRIPTOR ∨
      IoControlCode = IOCTL_HID_GET_REPORT_DESCRIPTOR)
    (r : WDFREQUEST) (p : PVOID) (n : Nat)
    (hcall : Call.RequestCopyFromBuffer r p n ∈
      (EmuControllerEvtIoDeviceControl h Queue Request OutputBufferLength InputBufferLength
        IoControlCode w).2) :
    n ≠ 0 ∧
    (IoControlCode = IOCTL_HID_GET_DEVICE_DESCRIPTOR →
      n = (w.DeviceContext (w.WdfIoQueueGetDevice Queue)).HidDescriptor.bLength) ∧
    (IoControlCode = IOCTL_HID_GET_REPORT_DESCRIPTOR →
      n = (w.DeviceContext
        (w.WdfIoQueueGetDevice Queue)).HidDescriptor.DescriptorList0.wReportLength) := by
  by_cases hr : Ready w Queue
  · rcases hcode with hc | hc
    · subst hc
      rw [dispatch_get_device_descriptor h Queue Request _ _ w hr] at hcall
      simp at hcall
      obtain ⟨-, -, hn⟩ := hcall
      subst hn
      exact ⟨hr.1, fun _ => rfl, fun hne => absurd hne (by decide)⟩
    · subst hc
      rw [dispatch_get_report_descriptor h Queue Request _ _ w hr] at hcall
      simp at hcall
      obtain ⟨-, -, hn⟩ := hcall
      subst hn
      exact ⟨hr.2, fun hne => absurd hne (by decide), fun _ => rfl⟩
  · rw [dispatch_of_notReady h Queue Request _ _ _ w hr] at hcall
    simp at hcall

/-- Witness for C8: the copy call of a Get-Report-Descriptor request on a
device with report-length entry 63. -/
theorem C8_copy_length_nonzero_witness :
    Call.RequestCopyFromBuffer 7 (PVOID.ReportDescriptor 1) 63 ∈
      (EmuControllerEvtIoDeviceControl sampleHandlers 1 7 63 0
        IOCTL_HID_GET_REPORT_DESCRIPTOR (sampleWorld 9 63 63)).2 ∧
    (63 : Nat) ≠ 0 :=
  ⟨by decide,
   (C8_copy_length_nonzero sampleHandlers 1 7 63 0 IOCTL_HID_GET_REPORT_DESCRIPTOR
     (sampleWorld 9 63 63) (Or.inr rfl) 7 (PVOID.ReportDescriptor 1) 63 (by decide)).1⟩

/-- Outside the Read-Report case the switch does not touch the flag. -/
theorem ioctlSwitch_keeps_flag (h : Handlers) (queueContext : PQUEUE_CONTEXT)
    (deviceContext : PDEVICE_CONTEXT) (Request : WDFREQUEST) (IoControlCode : Nat)
    (status : NTSTATUS) (w : World) (hne : IoControlCode ≠ IOCTL_HID_READ_REPORT) :
    (ioctlSwitch h queueContext deviceContext Request IoControlCode status true
      w).completeRequest = true := by
  unfold ioctlSwitch
  simp only [if_neg hne]
  repeat' split
  all_goals rfl

/-- CLAIM C9: on a ready device, a Read-Report dispatch calls `ReadReport` once,
with the flag `completeRequest` set on entry; the dispatcher then calls
`WdfRequestComplete` if and only if `ReadReport` left the flag set, and then on
this request with the status `ReadReport` returned; if `ReadReport` cleared
the flag nothing is signalled, whatever the status.  For every other code the
flag is still set after the switch. -/
theorem C9_completion_follows_flag (h : Handlers) (Queue : WDFQUEUE) (Request : WDFREQUEST)
    (OutputBufferLength InputBufferLength : Nat) (w : World) (hr : Ready w Queue) :
    EmuControllerEvtIoDeviceControl h Queue Request OutputBufferLength InputBufferLength
        IOCTL_HID_READ_REPORT w
      = ((h.ReadReport Queue Request true w).2.2,
         Call.ReadReport Queue Request ::
           (if (h.ReadReport Queue Request true w).2.1 = true then
              [Call.WdfRequestComplete Request (h.ReadReport Queue Request true w).1]
            else [])) ∧
    (∀ (r : WDFREQUEST) (s : NTSTATUS),
      Call.WdfRequestComplete r s ∈
          (EmuControllerEvtIoDeviceControl h Queue Request OutputBufferLength
            InputBufferLength IOCTL_HID_READ_REPORT w).2
        ↔ ((h.ReadReport Queue Request true w).2.1 = true ∧ r = Request ∧
            s = (h.ReadReport Queue Request true w).1)) ∧
    (∀ IoControlCode : Nat, IoControlCode ≠ IOCTL_HID_READ_REPORT →
      (ioctlSwitch h Queue (w.WdfIoQueueGetDevice Queue) Request IoControlCode
        STATUS_NOT_IMPLEMENTED true w).completeRequest = true) := by
  have heq : EmuControllerEvtIoDeviceControl h Queue Request OutputBufferLength
        InputBufferLength IOCTL_HID_READ_REPORT w
      = ((h.ReadReport Queue Request true w).2.2,
         Call.ReadReport Queue Request ::
           (if (h.ReadReport Queue Request true w).2.1 = true then
              [Call.WdfRequestComplete Request (h.ReadReport Queue Request true w).1]
            else [])) := by
    rw [dispatch_of_ready h Queue Request _ _ _ w hr]
    have hl : ioctlSwitch h Queue (w.WdfIoQueueGetDevice Queue) Request IOCTL_HID_READ_REPORT
        STATUS_NOT_IMPLEMENTED true w
        = ⟨(h.ReadReport Queue Request true w).1, (h.ReadReport Queue Request true w).2.1,
            (h.ReadReport Queue Request true w).2.2, [Call.ReadReport Queue Request]⟩ := rfl
    rw [hl]
    by_cases hf : (h.ReadReport Queue Request true w).2.1 = true
    · simp [hf]
    · simp [hf]
  refine ⟨heq, ?_, ?_⟩
  · intro r s
    rw [heq]
    by_cases hf : (h.ReadReport Queue Request true w).2.1 = true
    · simp [hf]
    · simp [hf]
  · intro IoControlCode hne
    exact ioctlSwitch_keeps_flag h Queue _ Request IoControlCode _ w hne

/-- Witness for C9: a `ReadReport` that fails and leaves the flag set makes the
dispatcher complete the request with that failure status. -/
theorem C9_completion_follows_flag_witness :
    Ready (sampleWorld 9 63 63) 1 ∧
    EmuControllerEvtIoDeviceControl
        { sampleHandlers with
          ReadReport := fun _ _ flag w => (STATUS_INVALID_PARAMETER, flag, w) }
        1 7 63 0 IOCTL_HID_READ_REPORT (sampleWorld 9 63 63)
      = (sampleWorld 9 63 63,
         [Call.ReadReport 1 7, Call.WdfRequestComplete 7 STATUS_INVALID_PARAMETER]) :=
  ⟨by decide,
   (C9_completion_follows_flag
     { sampleHandlers with
       ReadReport := fun _ _ flag w => (STATUS_INVALID_PARAMETER, flag, w) }
     1 7 63 0 (sampleWorld 9 63 63) (by decide)).1⟩

/-! ## Queue creation is all-or-nothing -/

/-- CLAIM C10: both initialisation routines call `WdfIoQueueCreate` once, on the
device, with a `QUEUE_CONTEXT` context type and with a default, parallel queue
whose device-control callback is the dispatcher (`EmuControllerQueueInitialize`),
respectively a non-default manual queue (`EmuControllerManualQueueInitialize`).
If creation fails the routine returns the creation status, leaves `*Queue` as
it was and leaves the world as creation left it (no context written).  If
creation succeeds the routine returns the creation status, stores the created
queue in `*Queue`, and the context of that queue then has `Queue` equal to the
created queue and `DeviceContext` pointing to the context of `Device`; no
other queue context changes. -/
theorem C10_queue_initialisation_all_or_nothing (WdfIoQueueCreate : WdfIoQueueCreateFn)
    (Device : WDFDEVICE) (Queue : WDFQUEUE) (w : World) :
    (NT_SUCCESS (WdfIoQueueCreate Device
          ⟨WDF_IO_QUEUE_DISPATCH_TYPE.WdfIoQueueDispatchParallel, true,
            some EVT_WDF_IO_QUEUE_IO_DEVICE_CONTROL.EmuControllerEvtIoDeviceControl⟩
          ⟨some WDF_OBJECT_CONTEXT_TYPE.QUEUE_CONTEXT⟩ w).1 = false →
      EmuControllerQueueInitialize WdfIoQueueCreate Device Queue w
        = ((WdfIoQueueCreate Device
              ⟨WDF_IO_QUEUE_DISPATCH_TYPE.WdfIoQueueDispatchParallel, true,
                some EVT_WDF_IO_QUEUE_IO_DEVICE_CONTROL.EmuControllerEvtIoDeviceControl⟩
              ⟨some WDF_OBJECT_CONTEXT_TYPE.QUEUE_CONTEXT⟩ w).1,
           Queue,
           (WdfIoQueueCreate Device
              ⟨WDF_IO_QUEUE_DISPATCH_TYPE.WdfIoQueueDispatchParallel, true,
                some EVT_WDF_IO_QUEUE_IO_DEVICE_CONTROL.EmuControllerEvtIoDeviceControl⟩
              ⟨some WDF_OBJECT_CONTEXT_TYPE.QUEUE_CONTEXT⟩ w).2.2)) ∧
    (NT_SUCCESS (WdfIoQueueCreate Device
          ⟨WDF_IO_QUEUE_DISPATCH_TYPE.WdfIoQueueDispatchParallel, true,
            some EVT_WDF_IO_QUEUE_IO_DEVICE_CONTROL.EmuControllerEvtIoDeviceControl⟩
          ⟨some WDF_OBJECT_CONTEXT_TYPE.QUEUE_CONTEXT⟩ w).1 = true →
      ∀ status queue w1,
        WdfIoQueueCreate Device
            ⟨WDF_IO_QUEUE_DISPATCH_TYPE.WdfIoQueueDispatchParallel, true,
              some EVT_WDF_IO_QUEUE_IO_DEVICE_CONTROL.EmuControllerEvtIoDeviceControl⟩
            ⟨some WDF_OBJECT_CONTEXT_TYPE.QUEUE_CONTEXT⟩ w = (status, queue, w1) →
        (EmuControllerQueueInitialize WdfIoQueueCreate Device Queue w).1 = status ∧
        (EmuControllerQueueInitialize WdfIoQueueCreate Device Queue w).2.1 = queue ∧
        ((EmuControllerQueueInitialize WdfIoQueueCreate Device Queue w).2.2.QueueContext
            queue).Queue = queue ∧
        ((EmuControllerQueueInitialize WdfIoQueueCreate Device Queue w).2.2.QueueContext
            queue).DeviceContext = Device ∧
        (∀ q, q ≠ queue →
          (EmuControllerQueueInitialize WdfIoQueueCreate Device Queue w).2.2.QueueContext q
            = w1.QueueContext q) ∧
        (EmuControllerQueueInitialize WdfIoQueueCreate Device Queue w).2.2.DeviceContext
          = w1.DeviceContext) ∧
    (NT_SUCCESS (WdfIoQueueCreate Device
          ⟨WDF_IO_QUEUE_DISPATCH_TYPE.WdfIoQueueDispatchManual, false, none⟩
          ⟨some WDF_OBJECT_CONTEXT_TYPE.QUEUE_CONTEXT⟩ w).1 = false →
      EmuControllerManualQueueInitialize WdfIoQueueCreate Device Queue w
        = ((WdfIoQueueCreate Device
              ⟨WDF_IO_QUEUE_DISPATCH_TYPE.WdfIoQueueDispatchManual, false, none⟩
              ⟨some WDF_OBJECT_CONTEXT_TYPE.QUEUE_CONTEXT⟩ w).1,
           Queue,
           (WdfIoQueueCreate Device
              ⟨WDF_IO_QUEUE_DISPATCH_TYPE.WdfIoQueueDispatchManual, false, none⟩
              ⟨some WDF_OBJECT_CONTEXT_TYPE.QUEUE_CONTEXT⟩ w).2.2)) ∧
    (NT_SUCCESS (WdfIoQueueCreate Device
          ⟨WDF_IO_QUEUE_DISPATCH_TYPE.WdfIoQueueDispatchManual, false, none⟩
          ⟨some WDF_OBJECT_CONTEXT_TYPE.QUEUE_CONTEXT⟩ w).1 = true →
      ∀ status queue w1,
        WdfIoQueueCreate Device
            ⟨WDF_IO_QUEUE_DISPATCH_TYPE.WdfIoQueueDispatchManual, false, none⟩
            ⟨some WDF_OBJECT_CONTEXT_TYPE.QUEUE_CONTEXT⟩ w = (status, queue, w1) →
        (EmuControllerManualQueueInitialize WdfIoQueueCreate Device Queue w).1 = status ∧
        (EmuControllerManualQueueInitialize WdfIoQueueCreate Device Queue w).2.1 = queue ∧
        ((EmuControllerManualQueueInitialize WdfIoQueueCreate Device Queue w).2.2.QueueContext
            queue).Queue = queue ∧
        ((EmuControllerManualQueueInitialize WdfIoQueueCreate Device Queue w).2.2.QueueContext
            queue).DeviceContext = Device ∧
        (∀ q, q ≠ queue →
          (EmuControllerManualQueueInitialize WdfIoQueueCreate Device Queue
            w).2.2.QueueContext q = w1.QueueContext q) ∧
        (EmuControllerManualQueueInitialize WdfIoQueueCreate Device Queue w).2.2.DeviceContext
          = w1.DeviceContext) := by
  refine ⟨?_, ?_, ?_, ?_⟩
  · intro hf
    simp only [EmuControllerQueueInitialize, WDF_IO_QUEUE_CONFIG_INIT_DEFAULT_QUEUE,
      WDF_OBJECT_ATTRIBUTES_INIT_CONTEXT_TYPE, hf]
    rfl
  · intro hs status queue w1 hc
    have hs1 : NT_SUCCESS status = true := by rw [hc] at hs; exact hs
    simp only [EmuControllerQueueInitialize, WDF_IO_QUEUE_CONFIG_INIT_DEFAULT_QUEUE,
      WDF_OBJECT_ATTRIBUTES_INIT_CONTEXT_TYPE, hc, hs1, storeQueueContext]
    refine ⟨rfl, rfl, ?_, ?_, ?_, rfl⟩
    · simp
    · simp
    · intro q hq
      simp [hq]
  · intro hf
    simp only [EmuControllerManualQueueInitialize, WDF_IO_QUEUE_CONFIG_INIT,
      WDF_OBJECT_ATTRIBUTES_INIT_CONTEXT_TYPE, hf]
    rfl
  · intro hs status queue w1 hc
    have hs1 : NT_SUCCESS status = true := by rw [hc] at hs; exact hs
    simp only [EmuControllerManualQueueInitialize, WDF_IO_QUEUE_CONFIG_INIT,
      WDF_OBJECT_ATTRIBUTES_INIT_CONTEXT_TYPE, hc, hs1, storeQueueContext]
    refine ⟨rfl, rfl, ?_, ?_, ?_, rfl⟩
    · simp
    · simp
    · intro q hq
      simp [hq]

/-- Witness for C10: with `sampleCreate` the manual queue fails with
`STATUS_INVALID_PARAMETER` and `*Queue` keeps its content 77, while the default
queue is created as queue 5, whose context then names queue 5 and device 1. -/
theorem C10_queue_initialisation_all_or_nothing_witness :
    EmuControllerManualQueueInitialize sampleCreate 1 77 (sampleWorld 9 63 9)
      = (STATUS_INVALID_PARAMETER, 77, sampleWorld 9 63 9) ∧
    ((EmuControllerQueueInitialize sampleCreate 1 77 (sampleWorld 9 63 9)).1 = STATUS_SUCCESS ∧
     (EmuControllerQueueInitialize sampleCreate 1 77 (sampleWorld 9 63 9)).2.1 = 5 ∧
     ((EmuControllerQueueInitialize sampleCreate 1 77
        (sampleWorld 9 63 9)).2.2.QueueContext 5).Queue = 5 ∧
     ((EmuControllerQueueInitialize sampleCreate 1 77
        (sampleWorld 9 63 9)).2.2.QueueContext 5).DeviceContext = 1 ∧
     (∀ q, q ≠ 5 →
       (EmuControllerQueueInitialize sampleCreate 1 77 (sampleWorld 9 63 9)).2.2.QueueContext q
         = (sampleWorld 9 63 9).QueueContext q) ∧
     (EmuControllerQueueInitialize sampleCreate 1 77 (sampleWorld 9 63 9)).2.2.DeviceContext
       = (sampleWorld 9 63 9).DeviceContext) :=
  ⟨(C10_queue_initialisation_all_or_nothing sampleCreate 1 77 (sampleWorld 9 63 9)).2.2.1
     (by decide),
   (C10_queue_initialisation_all_or_nothing sampleCreate 1 77 (sampleWorld 9 63 9)).2.1
     (by decide) STATUS_SUCCESS 5 (sampleWorld 9 63 9) rfl⟩

/-! ## Immediate copies with the modelled `RequestCopyFromBuffer` -/

/-- The modelled copy routine with a non-zero length and enough capacity. -/
theorem RequestCopyFromBuffer_fits (Request : WDFREQUEST) (src : PVOID) (n : Nat) (w : World)
    (hn : n ≠ 0) (hcap : n ≤ (w.OutputBuffer Request).length) :
    (RequestCopyFromBuffer Request src n w).1 = STATUS_SUCCESS ∧
    ((RequestCopyFromBuffer Request src n w).2.OutputBuffer Request).take n
      = (List.range n).map (w.Memory src) ∧
    ((RequestCopyFromBuffer Request src n w).2.OutputBuffer Request).drop n
      = (w.OutputBuffer Request).drop n ∧
    (RequestCopyFromBuffer Request src n w).2.Information Request = n := by
  have hlt : ¬ (w.OutputBuffer Request).length < n := by omega
  have hlen : ((List.range n).map (w.Memory src)).length = n := by simp
  have heq : RequestCopyFromBuffer Request src n w
      = (STATUS_SUCCESS,
          { w with
            OutputBuffer := fun r =>
              if r = Request then
                (List.range n).map (w.Memory src) ++ (w.OutputBuffer Request).drop n
              else w.OutputBuffer r
            Information := fun r => if r = Request then n else w.Information r }) := by
    simp only [RequestCopyFromBuffer, if_neg hn, if_neg hlt]
  rw [heq]
  refine ⟨rfl, ?_, ?_, ?_⟩
  · show List.take n (if Request = Request then _ else _) = _
    rw [if_pos rfl, List.take_append_of_le_length (by omega), List.take_of_length_le (by omega)]
  · show List.drop n (if Request = Request then _ else _) = _
    rw [if_pos rfl, List.drop_append_of_le_length (by omega), List.drop_of_length_le (by omega)]
    simp
  · show (if Request = Request then n else _) = n
    rw [if_pos rfl]

/-- The modelled copy routine with a capacity below the length. -/
theorem RequestCopyFromBuffer_too_small (Request : WDFREQUEST) (src : PVOID) (n : Nat)
    (w : World) (hcap : (w.OutputBuffer Request).length < n) :
    RequestCopyFromBuffer Request src n w = (STATUS_BUFFER_TOO_SMALL, w) := by
  have hn : n ≠ 0 := by omega
  simp only [RequestCopyFromBuffer, if_neg hn, if_pos hcap]

/-- The modelled copy routine returns Invalid-Parameter for a zero length
only. -/
theorem RequestCopyFromBuffer_invalid_parameter_iff (Request : WDFREQUEST) (src : PVOID)
    (n : Nat) (w : World) :
    (RequestCopyFromBuffer Request src n w).1 = STATUS_INVALID_PARAMETER ↔ n = 0 := by
  unfold RequestCopyFromBuffer
  split_ifs with h0 h1
  · simp [h0]
  · simp only [h0, iff_false]; decide
  · simp only [h0, iff_false]; decide

/-- A dispatch that is one copy call followed by the completion with the copy
status has the required outcome. -/
theorem immediateCopyOutcome_of_copy (Request : WDFREQUEST) (src : PVOID) (n : Nat)
    (w : World) (hn : n ≠ 0) :
    ImmediateCopyOutcome w Request src n
      ((RequestCopyFromBuffer Request src n w).2,
       [Call.RequestCopyFromBuffer Request src n,
        Call.WdfRequestComplete Request (RequestCopyFromBuffer Request src n w).1]) := by
  constructor
  · intro hcap
    obtain ⟨h1, h2, h3, h4⟩ := RequestCopyFromBuffer_fits Request src n w hn hcap
    exact ⟨by simp [completionsIn, h1], h2, h3, h4⟩
  · intro hcap
    rw [RequestCopyFromBuffer_too_small Request src n w hcap]
    exact ⟨by simp [completionsIn], rfl, rfl⟩

/-- CLAIM C6: with the modelled `RequestCopyFromBuffer`, on a ready device each
of the three immediate-copy codes has the required outcome for its source and
length (descriptor and `bLength`, attributes and
`sizeof(HID_DEVICE_ATTRIBUTES)`, report descriptor and the first report-length
entry): with output capacity at least the length, one completion with success,
exactly the source bytes in the first bytes of the output buffer, the rest of
the buffer untouched and the output length equal to the length; with a smaller
capacity, one completion with Buffer-Too-Small and no output buffer changed. -/
theorem C6_immediate_copy_outcome (h : Handlers) (Queue : WDFQUEUE) (Request : WDFREQUEST)
    (OutputBufferLength InputBufferLength : Nat) (w : World) (hr : Ready w Queue) :
    ImmediateCopyOutcome w Request (PVOID.HidDescriptor (w.WdfIoQueueGetDevice Queue))
      (w.DeviceContext (w.WdfIoQueueGetDevice Queue)).HidDescriptor.bLength
      (EmuControllerEvtIoDeviceControl { h with RequestCopyFromBuffer := RequestCopyFromBuffer }
        Queue Request OutputBufferLength InputBufferLength IOCTL_HID_GET_DEVICE_DESCRIPTOR w) ∧
    ImmediateCopyOutcome w Request
      (PVOID.HidDeviceAttributes (w.QueueContext Queue).DeviceContext)
      sizeof_HID_DEVICE_ATTRIBUTES
      (EmuControllerEvtIoDeviceControl { h with RequestCopyFromBuffer := RequestCopyFromBuffer }
        Queue Request OutputBufferLength InputBufferLength IOCTL_HID_GET_DEVICE_ATTRIBUTES w) ∧
    ImmediateCopyOutcome w Request (PVOID.ReportDescriptor (w.WdfIoQueueGetDevice Queue))
      (w.DeviceContext (w.WdfIoQueueGetDevice Queue)).HidDescriptor.DescriptorList0.wReportLength
      (EmuControllerEvtIoDeviceControl { h with RequestCopyFromBuffer := RequestCopyFromBuffer }
        Queue Request OutputBufferLength InputBufferLength IOCTL_HID_GET_REPORT_DESCRIPTOR w) := by
  rw [dispatch_get_device_descriptor _ Queue Request _ _ w hr,
    dispatch_get_device_attributes _ Queue Request _ _ w hr,
    dispatch_get_report_descriptor _ Queue Request _ _ w hr]
  exact ⟨immediateCopyOutcome_of_copy Request _ _ w hr.1,
    immediateCopyOutcome_of_copy Request _ _ w (by decide),
    immediateCopyOutcome_of_copy Request _ _ w hr.2⟩

/-- Witness for C6: descriptor length 9, report-length entry 63, a
Get-Device-Descriptor request with output capacity 9: one completion, with
success, output length 9, and the nine output bytes are the nine descriptor
bytes. -/
theorem C6_immediate_copy_outcome_witness :
    Ready (sampleWorld 9 63 9) 1 ∧
    ((sampleWorld 9 63 9).OutputBuffer 7).length = 9 ∧
    ImmediateCopyOutcome (sampleWorld 9 63 9) 7 (PVOID.HidDescriptor 1) 9
      (EmuControllerEvtIoDeviceControl sampleHandlers 1 7 9 0 IOCTL_HID_GET_DEVICE_DESCRIPTOR
        (sampleWorld 9 63 9)) ∧
    (EmuControllerEvtIoDeviceControl sampleHandlers 1 7 9 0 IOCTL_HID_GET_DEVICE_DESCRIPTOR
        (sampleWorld 9 63 9)).2
      = [Call.RequestCopyFromBuffer 7 (PVOID.HidDescriptor 1) 9,
         Call.WdfRequestComplete 7 STATUS_SUCCESS] ∧
    (EmuControllerEvtIoDeviceControl sampleHandlers 1 7 9 0 IOCTL_HID_GET_DEVICE_DESCRIPTOR
        (sampleWorld 9 63 9)).1.OutputBuffer 7
      = [9, 0x21, 0x01, 0x01, 0x00, 0x01, 0x22, 63, 0x00] ∧
    (EmuControllerEvtIoDeviceControl sampleHandlers 1 7 9 0 IOCTL_HID_GET_DEVICE_DESCRIPTOR
        (sampleWorld 9 63 9)).1.Information 7 = 9 :=
  ⟨by decide, by decide,
   (C6_immediate_copy_outcome sampleHandlers 1 7 9 0 (sampleWorld 9 63 9) (by decide)).1,
   by decide, by decide, by decide⟩

/-! ## The deferred read queue is first-in, first-out -/

/-- The completed requests of two lists of calls, one after the other. -/
theorem completedIn_append (a b : List Call) :
    completedIn (a ++ b) = completedIn a ++ completedIn b := by
  induction a with
  | nil => rfl
  | cons c cs ih => cases c <;> simp [completedIn, ih]

/-- The requests enqueued by an event followed by further events. -/
theorem enqueuedBy_cons (e : QueueEvent) (es : List QueueEvent) :
    enqueuedBy (e :: es) = enqueuedBy [e] ++ enqueuedBy es := by
  cases e <;> simp [enqueuedBy]

/-- One event keeps "completed, then pending" a sublist of "pending before,
then enqueued by the event". -/
theorem step_sublist (w : World) (e : QueueEvent) :
    (completedIn (QueueEvent.step w e).2 ++ (QueueEvent.step w e).1.DeferredReadQueue).Sublist
      (w.DeferredReadQueue ++ enqueuedBy [e]) := by
  cases e with
  | enqueue q r => simp [QueueEvent.step, ReadReport, completedIn, enqueuedBy]
  | fire =>
    simp only [QueueEvent.step, enqueuedBy, List.append_nil]
    unfold TriggerFiring
    split
    · rename_i hq; simp [completedIn, hq]
    · rename_i r rest hq
      simp only [hq]
      split_ifs <;> simp [completedIn, hq]
  | cancel r =>
    simp only [QueueEvent.step, Cancel, completedIn, enqueuedBy, List.append_nil, List.nil_append]
    exact List.filter_sublist _
  | store b => simp [QueueEvent.step, completedIn, enqueuedBy]

/-- A run keeps "completed, then pending" a sublist of "pending before, then
enqueued by the run": requests leave the queue from the head only, or by
cancellation. -/
theorem runEvents_sublist (es : List QueueEvent) : ∀ w : World,
    (completedIn (runEvents w es).2 ++ (runEvents w es).1.DeferredReadQueue).Sublist
      (w.DeferredReadQueue ++ enqueuedBy es) := by
  induction es with
  | nil => intro w; simp [runEvents, completedIn, enqueuedBy]
  | cons e es ih =>
    intro w
    have h1 := step_sublist w e
    have h2 := ih (QueueEvent.step w e).1
    have h3 : (completedIn (QueueEvent.step w e).2 ++
        (completedIn (runEvents (QueueEvent.step w e).1 es).2 ++
          (runEvents (QueueEvent.step w e).1 es).1.DeferredReadQueue)).Sublist
        (completedIn (QueueEvent.step w e).2 ++
          ((QueueEvent.step w e).1.DeferredReadQueue ++ enqueuedBy es)) :=
      List.Sublist.append (List.Sublist.refl _) h2
    have h4 : (completedIn (QueueEvent.step w e).2 ++
          ((QueueEvent.step w e).1.DeferredReadQueue ++ enqueuedBy es)).Sublist
        (w.DeferredReadQueue ++ enqueuedBy [e] ++ enqueuedBy es) := by
      rw [← List.append_assoc]
      exact List.Sublist.append h1 (List.Sublist.refl _)
    show (completedIn ((QueueEvent.step w e).2 ++ (runEvents (QueueEvent.step w e).1 es).2) ++
        (runEvents (QueueEvent.step w e).1 es).1.DeferredReadQueue).Sublist
      (w.DeferredReadQueue ++ enqueuedBy (e :: es))
    rw [completedIn_append, enqueuedBy_cons, List.append_assoc,
      ← List.append_assoc w.DeferredReadQueue]
    exact h3.trans h4

/-- In a list without repetition two elements occur in one order only. -/
theorem nodup_no_both_orders {α : Type} (l : List α) (hl : l.Nodup) (a b : α)
    (h1 : [a, b].Sublist l) (h2 : [b, a].Sublist l) : False := by
  induction l with
  | nil => cases h1
  | cons x xs ih =>
    have hx : x ∉ xs := (List.nodup_cons.mp hl).1
    have hxs : xs.Nodup := (List.nodup_cons.mp hl).2
    cases h1 with
    | cons _ h1 =>
      cases h2 with
      | cons _ h2 => exact ih hxs h1 h2
      | cons₂ _ h2 =>
        exact hx (h1.subset (by simp))
    | cons₂ _ h1 =>
      cases h2 with
      | cons _ h2 => exact hx (h2.subset (by simp))
      | cons₂ _ h2 => exact hx (h1.subset (by simp))

/-- Two different members of a list occur in it in one order or the other. -/
theorem two_members_ordered {α : Type} (l : List α) (a b : α) (hab : a ≠ b)
    (ha : a ∈ l) (hb : b ∈ l) : [a, b].Sublist l ∨ [b, a].Sublist l := by
  induction l with
  | nil => cases ha
  | cons x xs ih =>
    rcases List.mem_cons.mp ha with hax | hax
    · rcases List.mem_cons.mp hb with hbx | hbx
      · exact absurd (hax.trans hbx.symm) hab
      · left
        rw [hax]
        exact List.Sublist.cons₂ _ (List.singleton_sublist.mpr hbx)
    · rcases List.mem_cons.mp hb with hbx | hbx
      · right
        rw [hbx]
        exact List.Sublist.cons₂ _ (List.singleton_sublist.mpr hax)
      · rcases ih hax hbx with h | h
        · exact Or.inl (List.Sublist.cons _ h)
        · exact Or.inr (List.Sublist.cons _ h)

/-- A member of a list and a member of a second list occur in that order in
the two lists put together. -/
theorem ordered_across_append {α : Type} (l1 l2 : List α) (a b : α)
    (ha : a ∈ l1) (hb : b ∈ l2) : [a, b].Sublist (l1 ++ l2) :=
  List.Sublist.append (List.singleton_sublist.mpr ha) (List.singleton_sublist.mpr hb)

/-- CLAIM C7: in the modelled deferred read queue, started empty, let a run of
enqueues, trigger firings, cancellations and report changes enqueue each
request at most once and enqueue `R1` before `R2`.  If both are completed in
the run then `R1` is completed before `R2`; and once `R2` is completed `R1` is
no longer pending (it was completed before, or cancelled). -/
theorem C7_deferred_reads_fifo (w : World) (es : List QueueEvent) (R1 R2 : WDFREQUEST)
    (hempty : w.DeferredReadQueue = [])
    (hnodup : (enqueuedBy es).Nodup)
    (hord : [R1, R2].Sublist (enqueuedBy es)) :
    (R1 ∈ completedIn (runEvents w es).2 → R2 ∈ completedIn (runEvents w es).2 →
      [R1, R2].Sublist (completedIn (runEvents w es).2)) ∧
    (R2 ∈ completedIn (runEvents w es).2 → R1 ∉ (runEvents w es).1.DeferredReadQueue) := by
  have hinv := runEvents_sublist es w
  rw [hempty, List.nil_append] at hinv
  have hne : R1 ≠ R2 := by
    intro heq
    subst heq
    have := (List.Sublist.nodup hord hnodup)
    simp at this
  constructor
  · intro h1 h2
    rcases two_members_ordered _ R1 R2 hne h1 h2 with h | h
    · exact h
    · exact (nodup_no_both_orders _ hnodup R1 R2 hord
        ((h.trans (List.sublist_append_left _ _)).trans hinv)).elim
  · intro h2 h1
    exact nodup_no_both_orders _ hnodup R1 R2 hord
      ((ordered_across_append _ _ R2 R1 h2 h1).trans hinv)

/-- Witness for C7: requests 5 and 6 are enqueued in this order, a report of
two bytes is stored, and three firings follow; 5 is completed before 6. -/
theorem C7_deferred_reads_fifo_witness :
    (sampleWorld 9 63 2).DeferredReadQueue = [] ∧
    (enqueuedBy [QueueEvent.enqueue 1 5, QueueEvent.enqueue 1 6, QueueEvent.fire,
      QueueEvent.store [1, 2], QueueEvent.fire, QueueEvent.fire]).Nodup ∧
    (runEvents (sampleWorld 9 63 2)
      [QueueEvent.enqueue 1 5, QueueEvent.enqueue 1 6, QueueEvent.fire,
       QueueEvent.store [1, 2], QueueEvent.fire, QueueEvent.fire]).2
      = [Call.WdfRequestComplete 5 STATUS_SUCCESS, Call.WdfRequestComplete 6 STATUS_SUCCESS] ∧
    [5, 6].Sublist (completedIn (runEvents (sampleWorld 9 63 2)
      [QueueEvent.enqueue 1 5, QueueEvent.enqueue 1 6, QueueEvent.fire,
       QueueEvent.store [1, 2], QueueEvent.fire, QueueEvent.fire]).2) :=
  ⟨rfl, by decide, by decide,
   (C7_deferred_reads_fifo (sampleWorld 9 63 2)
     [QueueEvent.enqueue 1 5, QueueEvent.enqueue 1 6, QueueEvent.fire,
      QueueEvent.store [1, 2], QueueEvent.fire, QueueEvent.fire] 5 6 rfl (by decide)
     (by decide)).1 (by decide) (by decide)⟩

end EmuController
